import Mathlib

/-!
Verification of the cosim-ns3-omnet co-simulation core against its
natural-language specification.

The development shallowly embeds the relevant C++ code:
* the NFV decision engine and resource inventory of
  `src/adapters/omnet_orchestrator.cpp` (`analyzeAndDecide`,
  `shouldScaleUp`, `calculateRequiredInstances`, `findOptimalLocation`,
  `shouldMigrate`, `deployVNF`, the SCALE_DOWN branch of
  `executeNFVDecisions`), and
* the synchronization run loop of
  `src/common/leader_follower_synchronizer.cpp` (`run`,
  `executeTimeStep`) together with the vehicle-data exchange
  (`updateVehicleData` of the simulator adapters, and the legacy
  `Synchronizer::exchangeVehicleData`).

Modelling conventions: C++ `double` values become `Rat` (every constant
compared against — 0.05, 0.1, 0.3, 0.4, 0.5, 0.8 — is exactly
representable in binary floating point, and the code only compares,
adds and divides them, so the rational model is faithful for the
properties below); unsigned counters become `Nat`; `int` becomes `Int`.
Wall-clock fields (`createdAt`, step-duration statistics) and logging
are outside the embedding.  The textual rendering of a `double` inside
a reason string (`std::to_string`) is abstracted by `toString` on
`Rat`; no property below depends on that rendering.
-/

namespace Cosim

/-- VNF types, from `enum class VNFType` in `omnet_orchestrator.h`. -/
inductive VNFType
  | NDN_ROUTER
  | TRAFFIC_ANALYZER
  | SECURITY_VNF
  | CACHE_OPTIMIZER
deriving DecidableEq, Repr

/-- Function `vnfTypeToString`, from `omnet_orchestrator.cpp`. -/
def vnfTypeToString : VNFType → String
  | .NDN_ROUTER => "NDNRouter"
  | .TRAFFIC_ANALYZER => "TrafficAnalyzer"
  | .SECURITY_VNF => "SecurityVNF"
  | .CACHE_OPTIMIZER => "CacheOptimizer"

/-- Telemetry snapshot, from `struct NDNMetrics` (fields as parsed in
`parseNDNMetrics`): unsigned counters as `Nat`, doubles as `Rat`. -/
structure NDNMetrics where
  pitSize : Nat
  fibEntries : Nat
  cacheHitRatio : Rat
  interestCount : Nat
  dataCount : Nat
  avgLatency : Rat
  unsatisfiedInterests : Nat
  timestamp : Rat
  emergencyMessages : Nat
  safetyMessages : Nat
  networkUtilization : Rat
deriving DecidableEq, Repr

/-- Decision record, from `struct NFVDecision` in `omnet_orchestrator.h`.
A field the emitting branch does not set keeps the C++
default-constructed `std::string` value `""`. -/
structure NFVDecision where
  vnfType : VNFType
  action : String
  targetInstances : Int
  sourceLocation : String
  targetLocation : String
  reason : String
  timestamp : Rat
  priority : Int
deriving DecidableEq, Repr

/-- Constant `PIT_SCALE_THRESHOLD = 100` from `omnet_orchestrator.h`. -/
def PIT_SCALE_THRESHOLD : Nat := 100

/-- Constant `LATENCY_THRESHOLD = 0.1` (100 ms) from `omnet_orchestrator.h`. -/
def LATENCY_THRESHOLD : Rat := 1/10

/-- Constant `CACHE_EFFICIENCY_THRESHOLD = 0.5` from `omnet_orchestrator.h`. -/
def CACHE_EFFICIENCY_THRESHOLD : Rat := 1/2

/-- Constant `EMERGENCY_LATENCY_THRESHOLD = 0.05` (50 ms) from `omnet_orchestrator.h`. -/
def EMERGENCY_LATENCY_THRESHOLD : Rat := 1/20

/-- Function `OMNeTOrchestrator::shouldScaleUp`. -/
def shouldScaleUp (metrics : NDNMetrics) : VNFType → Bool
  | .NDN_ROUTER => decide (metrics.pitSize > PIT_SCALE_THRESHOLD)
  | .TRAFFIC_ANALYZER => decide (metrics.networkUtilization > 8/10)
  | .SECURITY_VNF => decide (metrics.emergencyMessages > 5)
  | .CACHE_OPTIMIZER => decide (metrics.cacheHitRatio < 3/10)

/-- C++ `static_cast<int>` applied to a nonnegative double: truncation
toward zero, i.e. the integer quotient of numerator by denominator. -/
def ratTruncToInt (q : Rat) : Int := q.num / (q.den : Int)

/-- Function `OMNeTOrchestrator::calculateRequiredInstances`.  The router and
security branches divide an unsigned counter before casting, so the
division happens in `Nat`; the analyzer branch casts a double product. -/
def calculateRequiredInstances (metrics : NDNMetrics) : VNFType → Int
  | .NDN_ROUTER => ((min 5 (metrics.pitSize / 50 + 1) : Nat) : Int)
  | .TRAFFIC_ANALYZER => min 3 (ratTruncToInt (metrics.networkUtilization * 4))
  | .SECURITY_VNF => ((min 3 (metrics.emergencyMessages / 3 + 1) : Nat) : Int)
  | .CACHE_OPTIMIZER => 1

/-- Function `OMNeTOrchestrator::findOptimalLocation`. -/
def findOptimalLocation (metrics : NDNMetrics) : VNFType → String
  | .NDN_ROUTER => if metrics.avgLatency > 5/100 then "EDGE_1" else "RSU_1"
  | .TRAFFIC_ANALYZER => "EDGE_1"
  | .SECURITY_VNF => "RSU_1"
  | .CACHE_OPTIMIZER => if metrics.cacheHitRatio < 4/10 then "EDGE_2" else "EDGE_1"

/-- Function `OMNeTOrchestrator::shouldMigrate`. -/
def shouldMigrate (metrics : NDNMetrics) (ty : VNFType) : Bool :=
  if metrics.avgLatency > LATENCY_THRESHOLD ∧ ty = VNFType.NDN_ROUTER then
    true
  else if metrics.cacheHitRatio < CACHE_EFFICIENCY_THRESHOLD ∧ ty = VNFType.CACHE_OPTIMIZER then
    true
  else
    false

/-- The decision built by the router scale-up block of
`analyzeAndDecide` (lines 329–341). -/
def routerScaleUpDecision (currentTime : Rat) (metrics : NDNMetrics) : NFVDecision :=
  { vnfType := VNFType.NDN_ROUTER
    action := "SCALE_UP"
    targetInstances := calculateRequiredInstances metrics VNFType.NDN_ROUTER
    sourceLocation := ""
    targetLocation := findOptimalLocation metrics VNFType.NDN_ROUTER
    reason := "PIT size exceeded threshold: " ++ toString metrics.pitSize
    timestamp := currentTime
    priority := if metrics.emergencyMessages > 0 then 1 else 2 }

/-- The decision built by the cache-efficiency block of
`analyzeAndDecide` (lines 344–355). -/
def cacheOptimizeDecision (currentTime : Rat) (metrics : NDNMetrics) : NFVDecision :=
  { vnfType := VNFType.CACHE_OPTIMIZER
    action := "OPTIMIZE"
    targetInstances := 1
    sourceLocation := ""
    targetLocation := "EDGE_1"
    reason := "Cache hit ratio below threshold: " ++ toString metrics.cacheHitRatio
    timestamp := currentTime
    priority := 3 }

/-- The decision built by the migration block of `analyzeAndDecide`
(lines 358–373). -/
def migrateDecision (currentTime : Rat) (metrics : NDNMetrics) : NFVDecision :=
  { vnfType := VNFType.NDN_ROUTER
    action := "MIGRATE"
    targetInstances := 1
    sourceLocation := "RSU_1"
    targetLocation := findOptimalLocation metrics VNFType.NDN_ROUTER
    reason := "High latency: " ++ toString (metrics.avgLatency * 1000) ++ "ms"
    timestamp := currentTime
    priority := if metrics.avgLatency > EMERGENCY_LATENCY_THRESHOLD then 1 else 2 }

/-- The decision built by the emergency-response block of
`analyzeAndDecide` (lines 376–388). -/
def emergencyScaleUpDecision (currentTime : Rat) (metrics : NDNMetrics) : NFVDecision :=
  { vnfType := VNFType.SECURITY_VNF
    action := "SCALE_UP"
    targetInstances := 2
    sourceLocation := ""
    targetLocation := "RSU_1"
    reason := "Emergency messages detected: " ++ toString metrics.emergencyMessages
    timestamp := currentTime
    priority := 1 }

/-- Function `OMNeTOrchestrator::analyzeAndDecide`: the four rule blocks push
decisions onto the result vector in source order.  `currentTime` is the
orchestrator's `currentTime_` read when each decision is built. -/
def analyzeAndDecide (currentTime : Rat) (metrics : NDNMetrics) : List NFVDecision :=
  (if shouldScaleUp metrics VNFType.NDN_ROUTER then
    [routerScaleUpDecision currentTime metrics]
  else []) ++
  (if metrics.cacheHitRatio < CACHE_EFFICIENCY_THRESHOLD then
    [cacheOptimizeDecision currentTime metrics]
  else []) ++
  (if metrics.avgLatency > LATENCY_THRESHOLD then
    (if shouldMigrate metrics VNFType.NDN_ROUTER then
      [migrateDecision currentTime metrics]
    else [])
  else []) ++
  (if metrics.emergencyMessages > 0 then
    [emergencyScaleUpDecision currentTime metrics]
  else [])

/-- A deployed VNF instance, from `struct VNFInstance` in
`omnet_orchestrator.h`; `createdAt` (wall clock) and `networkLoad`
(never written by `deployVNF`) are outside the embedding. -/
structure VNFInstance where
  instanceId : String
  type : VNFType
  location : String
  cpuUsage : Rat
  memoryUsage : Rat
  isActive : Bool
deriving DecidableEq, Repr

/-- The inventory `std::map<VNFType, std::vector<VNFInstance>>
vnfInstances_`, one vector per VNF type (the constructor seeds all four
keys with empty vectors). -/
structure VNFInventory where
  router : List VNFInstance
  analyzer : List VNFInstance
  security : List VNFInstance
  cache : List VNFInstance
deriving DecidableEq, Repr

/-- Reading `vnfInstances_[ty]`. -/
def VNFInventory.insts (inv : VNFInventory) : VNFType → List VNFInstance
  | .NDN_ROUTER => inv.router
  | .TRAFFIC_ANALYZER => inv.analyzer
  | .SECURITY_VNF => inv.security
  | .CACHE_OPTIMIZER => inv.cache

/-- Writing back the vector stored at one key of `vnfInstances_`. -/
def VNFInventory.setInsts (inv : VNFInventory) (ty : VNFType) (l : List VNFInstance) :
    VNFInventory :=
  match ty with
  | .NDN_ROUTER => { inv with router := l }
  | .TRAFFIC_ANALYZER => { inv with analyzer := l }
  | .SECURITY_VNF => { inv with security := l }
  | .CACHE_OPTIMIZER => { inv with cache := l }

/-- The inventory at orchestrator construction: all four type keys map
to empty vectors. -/
def emptyInventory : VNFInventory := ⟨[], [], [], []⟩

/-- Function `OMNeTOrchestrator::deployVNF`: builds an instance whose id is the
type name suffixed with the type's current instance count, pushes it at
the back of the type's vector, and returns `true`.  Result:
(returned bool, assigned `instanceId`, updated inventory). -/
def deployVNF (inv : VNFInventory) (ty : VNFType) (location : String) :
    Bool × String × VNFInventory :=
  let inst : VNFInstance :=
    { instanceId := vnfTypeToString ty ++ "_" ++ toString (inv.insts ty).length
      type := ty
      location := location
      cpuUsage := 3/10
      memoryUsage := 2/10
      isActive := true }
  (true, inst.instanceId, inv.setInsts ty (inv.insts ty ++ [inst]))

/-- The `SCALE_DOWN` branch of `OMNeTOrchestrator::executeNFVDecisions`:
`if (!instances.empty()) instances.pop_back();`.  The returned `Bool` is
that branch condition — whether an instance was removed. -/
def scaleDown (inv : VNFInventory) (ty : VNFType) : Bool × VNFInventory :=
  if (inv.insts ty).isEmpty then (false, inv)
  else (true, inv.setInsts ty (inv.insts ty).dropLast)

/-- An inventory-mutating operation, as dispatched by
`executeNFVDecisions` on a decision's action string. -/
inductive NFVOp
  | deploy (ty : VNFType) (loc : String)
  | scaleDown (ty : VNFType)
deriving DecidableEq, Repr

/-- Applying a sequence of operations, recording every identifier
`deployVNF` assigns together with its type. -/
def applyOps : VNFInventory → List NFVOp → VNFInventory × List (VNFType × String)
  | inv, [] => (inv, [])
  | inv, NFVOp.deploy ty loc :: rest =>
    let r := deployVNF inv ty loc
    ((applyOps r.2.2 rest).1, (ty, r.2.1) :: (applyOps r.2.2 rest).2)
  | inv, NFVOp.scaleDown ty :: rest => applyOps (Cosim.scaleDown inv ty).2 rest

/-- The identifiers assigned for one type, in assignment order. -/
def idsFor (ty : VNFType) : List (VNFType × String) → List String
  | [] => []
  | (ty', id) :: rest =>
    if ty' = ty then id :: idsFor ty rest else idsFor ty rest

/-- The numeric suffixes (`(inv.insts ty).length` at deploy time) that
`deployVNF` embeds into the identifiers it assigns for one type, along
an operation sequence. -/
def idxTrace : VNFInventory → List NFVOp → VNFType → List Nat
  | _, [], _ => []
  | inv, NFVOp.deploy ty' loc :: rest, ty =>
    if ty' = ty then
      (inv.insts ty).length :: idxTrace (deployVNF inv ty' loc).2.2 rest ty
    else
      idxTrace (deployVNF inv ty' loc).2.2 rest ty
  | inv, NFVOp.scaleDown ty' :: rest, ty => idxTrace (Cosim.scaleDown inv ty').2 rest ty

/-- Per-run synchronizer state: `currentTime_`, the performance
counters of `LeaderFollowerSynchronizer`, and the local `stepCount` of
`run()`.  Step-duration statistics are wall clock and outside the
embedding. -/
structure SyncState where
  currentTime : Rat
  totalSteps : Nat
  successfulSteps : Nat
  failedSteps : Nat
  stepCount : Nat
deriving DecidableEq, Repr

/-- Counter effect of `LeaderFollowerSynchronizer::executeTimeStep`:
every failure path (leader step failed, follower step failed, exception)
increments `failedSteps` once and returns `false`; the success path
(including the vehicle-data exchange) increments `successfulSteps` and
returns `true`.  The step outcome `o` abstracts the leader/follower
step results and exchange exceptions. -/
def executeTimeStepCounters (o : Bool) (s : SyncState) : SyncState × Bool :=
  if o then ({ s with successfulSteps := s.successfulSteps + 1 }, true)
  else ({ s with failedSteps := s.failedSteps + 1 }, false)

/-- One iteration of the `while` body of
`LeaderFollowerSynchronizer::run`: execute the time step, bump
`totalSteps` (`updatePerformanceMetrics`), then either advance
`currentTime_` by the sync interval on success, or on failure keep the
time and break out of the loop when `failedSteps > 5`.  Returns the new
state and whether the loop `break`s. -/
def loopBody (syncInterval : Rat) (o : Bool) (s : SyncState) : SyncState × Bool :=
  let s1 := (executeTimeStepCounters o s).1
  let success := (executeTimeStepCounters o s).2
  let s2 := { s1 with totalSteps := s1.totalSteps + 1 }
  if success then
    ({ s2 with
        currentTime := s2.currentTime + syncInterval
        stepCount := s2.stepCount + 1 }, false)
  else
    (s2, decide (s2.failedSteps > 5))

/-- The `while (running_ && currentTime_ < simulationTime)` loop of
`run()`, driven by a script of step outcomes (one `Bool` per
`executeTimeStep` call); the simulators are assumed to stay running and
no external stop request arrives, so the loop ends on the time bound,
the failure `break`, or exhaustion of the script. -/
def runLoop (syncInterval simulationTime : Rat) : SyncState → List Bool → SyncState
  | s, [] => s
  | s, o :: rest =>
    if s.currentTime < simulationTime then
      if (loopBody syncInterval o s).2 then (loopBody syncInterval o s).1
      else runLoop syncInterval simulationTime (loopBody syncInterval o s).1 rest
    else s

/-- The value `run()` returns: `currentTime_ >= simulationTime`
(`true` = completed, `false` = terminated early / failure outcome). -/
def runOutcome (syncInterval simulationTime : Rat) (s : SyncState) (script : List Bool) :
    Bool :=
  decide (simulationTime ≤ (runLoop syncInterval simulationTime s script).currentTime)

/-- Vehicle record, from `struct VehicleInfo` in the common headers. -/
structure VehicleInfo where
  id : String
  x : Rat
  y : Rat
  z : Rat
  vx : Rat
  vy : Rat
  vz : Rat
  speed : Rat
  heading : Rat
  timestamp : Rat
deriving DecidableEq, Repr

/-- The vehicle datasets held by the two simulators
(`vehicles_` of the leader orchestrator and of the follower adapter). -/
structure SimPair where
  leaderVehicles : List VehicleInfo
  followerVehicles : List VehicleInfo
deriving DecidableEq, Repr

/-- Step 3 of `LeaderFollowerSynchronizer::executeTimeStep`: pull both
datasets, then `follower_->updateVehicleData(leaderVehicles)` and
`leader_->updateVehicleData(followerVehicles)`; both adapters implement
`updateVehicleData` as plain assignment `vehicles_ = vehicleData`
(`OMNeTOrchestrator::updateVehicleData`, `NS3Adapter::updateVehicleData`). -/
def executeTimeStepExchange (p : SimPair) : SimPair :=
  let leaderVehicles := p.leaderVehicles
  let followerVehicles := p.followerVehicles
  { leaderVehicles := followerVehicles, followerVehicles := leaderVehicles }

/-- Function `Synchronizer::exchangeVehicleData` of the legacy generic
synchronizer (`synchronizer.cpp`): with at least two simulators,
concatenate every simulator's vehicles and assign the combined list to
every simulator. -/
def exchangeVehicleDataUnion (datasets : List (List VehicleInfo)) :
    List (List VehicleInfo) :=
  if datasets.length < 2 then datasets
  else datasets.map (fun _ => datasets.flatten)

/-! ## Helper lemmas -/

/-- Membership in a conditional singleton. -/
lemma mem_ite_singleton {α : Type} {c : Prop} [Decidable c] {x d : α} :
    (d ∈ if c then [x] else []) ↔ c ∧ d = x := by
  split_ifs with h <;> simp [h]

/-- Membership in a nested conditional singleton. -/
lemma mem_ite_ite_singleton {α : Type} {c c2 : Prop} [Decidable c] [Decidable c2] {x d : α} :
    (d ∈ if c then (if c2 then [x] else []) else []) ↔ c ∧ c2 ∧ d = x := by
  split_ifs with h h2 <;> simp [*]

/-- Membership in the decision list, by rule block. -/
lemma mem_analyzeAndDecide_iff (t : Rat) (m : NDNMetrics) (d : NFVDecision) :
    d ∈ analyzeAndDecide t m ↔
      (shouldScaleUp m VNFType.NDN_ROUTER = true ∧ d = routerScaleUpDecision t m) ∨
      (m.cacheHitRatio < CACHE_EFFICIENCY_THRESHOLD ∧ d = cacheOptimizeDecision t m) ∨
      (m.avgLatency > LATENCY_THRESHOLD ∧ shouldMigrate m VNFType.NDN_ROUTER = true ∧
        d = migrateDecision t m) ∨
      (m.emergencyMessages > 0 ∧ d = emergencyScaleUpDecision t m) := by
  simp only [analyzeAndDecide, List.mem_append, mem_ite_ite_singleton, mem_ite_singleton,
    or_assoc]

@[simp] lemma routerScaleUpDecision_vnfType (t : Rat) (m : NDNMetrics) :
    (routerScaleUpDecision t m).vnfType = VNFType.NDN_ROUTER := rfl

@[simp] lemma routerScaleUpDecision_action (t : Rat) (m : NDNMetrics) :
    (routerScaleUpDecision t m).action = "SCALE_UP" := rfl

@[simp] lemma routerScaleUpDecision_targetInstances (t : Rat) (m : NDNMetrics) :
    (routerScaleUpDecision t m).targetInstances =
      calculateRequiredInstances m VNFType.NDN_ROUTER := rfl

@[simp] lemma routerScaleUpDecision_timestamp (t : Rat) (m : NDNMetrics) :
    (routerScaleUpDecision t m).timestamp = t := rfl

@[simp] lemma cacheOptimizeDecision_vnfType (t : Rat) (m : NDNMetrics) :
    (cacheOptimizeDecision t m).vnfType = VNFType.CACHE_OPTIMIZER := rfl

@[simp] lemma cacheOptimizeDecision_action (t : Rat) (m : NDNMetrics) :
    (cacheOptimizeDecision t m).action = "OPTIMIZE" := rfl

@[simp] lemma cacheOptimizeDecision_timestamp (t : Rat) (m : NDNMetrics) :
    (cacheOptimizeDecision t m).timestamp = t := rfl

@[simp] lemma migrateDecision_vnfType (t : Rat) (m : NDNMetrics) :
    (migrateDecision t m).vnfType = VNFType.NDN_ROUTER := rfl

@[simp] lemma migrateDecision_action (t : Rat) (m : NDNMetrics) :
    (migrateDecision t m).action = "MIGRATE" := rfl

@[simp] lemma migrateDecision_timestamp (t : Rat) (m : NDNMetrics) :
    (migrateDecision t m).timestamp = t := rfl

@[simp] lemma migrateDecision_priority (t : Rat) (m : NDNMetrics) :
    (migrateDecision t m).priority =
      if m.avgLatency > EMERGENCY_LATENCY_THRESHOLD then 1 else 2 := rfl

@[simp] lemma emergencyScaleUpDecision_vnfType (t : Rat) (m : NDNMetrics) :
    (emergencyScaleUpDecision t m).vnfType = VNFType.SECURITY_VNF := rfl

@[simp] lemma emergencyScaleUpDecision_action (t : Rat) (m : NDNMetrics) :
    (emergencyScaleUpDecision t m).action = "SCALE_UP" := rfl

@[simp] lemma emergencyScaleUpDecision_timestamp (t : Rat) (m : NDNMetrics) :
    (emergencyScaleUpDecision t m).timestamp = t := rfl

@[simp] lemma emergencyScaleUpDecision_priority (t : Rat) (m : NDNMetrics) :
    (emergencyScaleUpDecision t m).priority = 1 := rfl

/-! ## Concrete sample snapshots used by witnesses and counterexamples -/

/-- A snapshot whose only nonzero activity is one emergency message;
its own `timestamp` field is 42. -/
def emergencyMetrics : NDNMetrics :=
  { pitSize := 0
    fibEntries := 0
    cacheHitRatio := 1
    interestCount := 0
    dataCount := 0
    avgLatency := 0
    unsatisfiedInterests := 0
    timestamp := 42
    emergencyMessages := 1
    safetyMessages := 0
    networkUtilization := 0 }

/-- A snapshot with high latency (200 ms) and no other triggers. -/
def highLatencyMetrics : NDNMetrics :=
  { pitSize := 0
    fibEntries := 0
    cacheHitRatio := 1
    interestCount := 0
    dataCount := 0
    avgLatency := 1/5
    unsatisfiedInterests := 0
    timestamp := 0
    emergencyMessages := 0
    safetyMessages := 0
    networkUtilization := 0 }

/-- A snapshot with 150 pending interests and no other triggers. -/
def pit150Metrics : NDNMetrics :=
  { pitSize := 150
    fibEntries := 0
    cacheHitRatio := 1
    interestCount := 0
    dataCount := 0
    avgLatency := 0
    unsatisfiedInterests := 0
    timestamp := 0
    emergencyMessages := 0
    safetyMessages := 0
    networkUtilization := 0 }

/-- A snapshot sitting exactly on both boundaries: cache-hit ratio
exactly 0.5 and PIT size exactly 100. -/
def boundaryMetrics : NDNMetrics :=
  { pitSize := 100
    fibEntries := 0
    cacheHitRatio := 1/2
    interestCount := 0
    dataCount := 0
    avgLatency := 0
    unsatisfiedInterests := 0
    timestamp := 0
    emergencyMessages := 0
    safetyMessages := 0
    networkUtilization := 0 }

/-! ## Claims about the decision engine -/

/-- The emergency decision is in the list for `emergencyMetrics`. -/
lemma emergencyMetrics_mem :
    emergencyScaleUpDecision 0 emergencyMetrics ∈ analyzeAndDecide 0 emergencyMetrics := by
  rw [mem_analyzeAndDecide_iff]
  exact Or.inr (Or.inr (Or.inr ⟨by decide, rfl⟩))

/-- C3 (counterexample): the claim "every decision returned by
`analyzeAndDecide` carries the snapshot's own `timestamp` field" fails:
for a snapshot whose `timestamp` is 42 evaluated while the
orchestrator's current time is 0, the emitted decision's timestamp is
0, not 42. -/
theorem decision_timestamp_not_snapshot :
    ¬ (∀ d ∈ analyzeAndDecide 0 emergencyMetrics, d.timestamp = emergencyMetrics.timestamp) := by
  intro hall
  have h := hall _ emergencyMetrics_mem
  rw [emergencyScaleUpDecision_timestamp] at h
  norm_num [emergencyMetrics] at h

/-- C3 (amended): every decision returned by `analyzeAndDecide` carries
the orchestrator's current simulated time (`currentTime_` at the moment
of evaluation) as its timestamp — not the snapshot's `timestamp`
field. -/
theorem decision_timestamp_is_current_time (t : Rat) (m : NDNMetrics) :
    ∀ d ∈ analyzeAndDecide t m, d.timestamp = t := by
  intro d hd
  rw [mem_analyzeAndDecide_iff] at hd
  rcases hd with ⟨-, rfl⟩ | ⟨-, rfl⟩ | ⟨-, -, rfl⟩ | ⟨-, rfl⟩ <;> rfl

/-- Witness for C3 (amended) at a concrete snapshot. -/
theorem decision_timestamp_is_current_time_witness :
    emergencyScaleUpDecision 0 emergencyMetrics ∈ analyzeAndDecide 0 emergencyMetrics ∧
      (emergencyScaleUpDecision 0 emergencyMetrics).timestamp = 0 :=
  ⟨emergencyMetrics_mem,
    decision_timestamp_is_current_time 0 emergencyMetrics _ emergencyMetrics_mem⟩

/-- C6: whenever the snapshot reports at least one emergency message,
the decision list contains a `SCALE_UP` decision for `SECURITY_VNF`
with priority 1, whatever the other metrics and whether or not the
rule-1 scale-up check fired. -/
theorem emergency_always_security_scaleup (t : Rat) (m : NDNMetrics)
    (h : m.emergencyMessages > 0) :
    ∃ d ∈ analyzeAndDecide t m,
      d.vnfType = VNFType.SECURITY_VNF ∧ d.action = "SCALE_UP" ∧ d.priority = 1 := by
  refine ⟨emergencyScaleUpDecision t m, ?_, rfl, rfl, rfl⟩
  rw [mem_analyzeAndDecide_iff]
  exact Or.inr (Or.inr (Or.inr ⟨h, rfl⟩))

/-- Witness for C6 at a concrete snapshot with 1 emergency message. -/
theorem emergency_always_security_scaleup_witness :
    ∃ d ∈ analyzeAndDecide 0 emergencyMetrics,
      d.vnfType = VNFType.SECURITY_VNF ∧ d.action = "SCALE_UP" ∧ d.priority = 1 :=
  emergency_always_security_scaleup 0 emergencyMetrics (by decide)

/-- C7: for any snapshot with PIT size 150 (above the router threshold
100), the decision list contains a router `SCALE_UP` decision whose
requested instance count is `min 5 (150 / 50 + 1) = 4`. -/
theorem pit150_router_scaleup_four (t : Rat) (m : NDNMetrics) (h : m.pitSize = 150) :
    ∃ d ∈ analyzeAndDecide t m,
      d.vnfType = VNFType.NDN_ROUTER ∧ d.action = "SCALE_UP" ∧ d.targetInstances = 4 := by
  refine ⟨routerScaleUpDecision t m, ?_, rfl, rfl, ?_⟩
  · rw [mem_analyzeAndDecide_iff]
    refine Or.inl ⟨?_, rfl⟩
    simp [shouldScaleUp, PIT_SCALE_THRESHOLD, h]
  · show calculateRequiredInstances m VNFType.NDN_ROUTER = 4
    simp [calculateRequiredInstances, h]

/-- Witness for C7 at a concrete snapshot with PIT size 150. -/
theorem pit150_router_scaleup_four_witness :
    ∃ d ∈ analyzeAndDecide 0 pit150Metrics,
      d.vnfType = VNFType.NDN_ROUTER ∧ d.action = "SCALE_UP" ∧ d.targetInstances = 4 :=
  pit150_router_scaleup_four 0 pit150Metrics (by decide)

/-- C8: both threshold comparisons are strict — a snapshot whose
cache-hit ratio is exactly 0.5 yields no `OPTIMIZE` decision, and a
snapshot whose PIT size is exactly 100 yields no router `SCALE_UP`
decision. -/
theorem boundary_thresholds_strict (t : Rat) (m : NDNMetrics) :
    (m.cacheHitRatio = 1/2 → ∀ d ∈ analyzeAndDecide t m, d.action ≠ "OPTIMIZE") ∧
    (m.pitSize = 100 → ∀ d ∈ analyzeAndDecide t m,
      ¬(d.vnfType = VNFType.NDN_ROUTER ∧ d.action = "SCALE_UP")) := by
  constructor
  · intro h d hd
    rw [mem_analyzeAndDecide_iff] at hd
    rcases hd with ⟨-, rfl⟩ | ⟨hlt, rfl⟩ | ⟨-, -, rfl⟩ | ⟨-, rfl⟩
    · rw [routerScaleUpDecision_action]
      decide
    · rw [h] at hlt
      exact absurd hlt (by norm_num [CACHE_EFFICIENCY_THRESHOLD])
    · rw [migrateDecision_action]
      decide
    · rw [emergencyScaleUpDecision_action]
      decide
  · intro h d hd
    rw [mem_analyzeAndDecide_iff] at hd
    rcases hd with ⟨hup, rfl⟩ | ⟨-, rfl⟩ | ⟨-, -, rfl⟩ | ⟨-, rfl⟩
    · have hno : ¬ (shouldScaleUp m VNFType.NDN_ROUTER = true) := by
        simp [shouldScaleUp, PIT_SCALE_THRESHOLD, h]
      exact absurd hup hno
    · rw [cacheOptimizeDecision_vnfType]
      rintro ⟨hv, -⟩
      cases hv
    · rw [migrateDecision_action, migrateDecision_vnfType]
      rintro ⟨-, hv⟩
      exact absurd hv (by decide)
    · rw [emergencyScaleUpDecision_vnfType]
      rintro ⟨hv, -⟩
      cases hv

/-- Witness for C8 at a snapshot sitting exactly on both boundaries. -/
theorem boundary_thresholds_strict_witness :
    (∀ d ∈ analyzeAndDecide 0 boundaryMetrics, d.action ≠ "OPTIMIZE") ∧
    (∀ d ∈ analyzeAndDecide 0 boundaryMetrics,
      ¬(d.vnfType = VNFType.NDN_ROUTER ∧ d.action = "SCALE_UP")) :=
  ⟨(boundary_thresholds_strict 0 boundaryMetrics).1 rfl,
    (boundary_thresholds_strict 0 boundaryMetrics).2 (by decide)⟩

/-- C10: every `MIGRATE` decision the engine emits has priority 1: the
migration block only runs when `avgLatency > 0.1`, and 0.1 exceeds the
0.05 emergency threshold that selects priority 1, so the priority-2
branch is unreachable. -/
theorem migrate_priority_always_one (t : Rat) (m : NDNMetrics) (d : NFVDecision)
    (hd : d ∈ analyzeAndDecide t m) (ha : d.action = "MIGRATE") : d.priority = 1 := by
  rw [mem_analyzeAndDecide_iff] at hd
  rcases hd with ⟨-, rfl⟩ | ⟨-, rfl⟩ | ⟨hlt, -, rfl⟩ | ⟨-, rfl⟩
  · rw [routerScaleUpDecision_action] at ha
    exact absurd ha (by decide)
  · rw [cacheOptimizeDecision_action] at ha
    exact absurd ha (by decide)
  · have hem : m.avgLatency > EMERGENCY_LATENCY_THRESHOLD :=
      lt_trans (by norm_num [EMERGENCY_LATENCY_THRESHOLD, LATENCY_THRESHOLD]) hlt
    rw [migrateDecision_priority, if_pos hem]
  · rw [emergencyScaleUpDecision_action] at ha
    exact absurd ha (by decide)

/-- The high-latency snapshot makes the migration rule fire. -/
lemma highLatencyMetrics_mem :
    migrateDecision 0 highLatencyMetrics ∈ analyzeAndDecide 0 highLatencyMetrics := by
  rw [mem_analyzeAndDecide_iff]
  refine Or.inr (Or.inr (Or.inl ⟨?_, ?_, rfl⟩))
  · norm_num [highLatencyMetrics, LATENCY_THRESHOLD]
  · norm_num [shouldMigrate, highLatencyMetrics, LATENCY_THRESHOLD]

/-- Witness for C10: the high-latency snapshot makes the engine emit a
`MIGRATE` decision, and its priority is 1. -/
theorem migrate_priority_always_one_witness :
    migrateDecision 0 highLatencyMetrics ∈ analyzeAndDecide 0 highLatencyMetrics ∧
      (migrateDecision 0 highLatencyMetrics).priority = 1 :=
  ⟨highLatencyMetrics_mem,
    migrate_priority_always_one 0 highLatencyMetrics (migrateDecision 0 highLatencyMetrics)
      highLatencyMetrics_mem rfl⟩

/-! ## Claims about the resource inventory -/

@[simp] lemma insts_setInsts_self (inv : VNFInventory) (ty : VNFType) (l : List VNFInstance) :
    (inv.setInsts ty l).insts ty = l := by
  cases ty <;> rfl

lemma insts_setInsts_ne (inv : VNFInventory) (l : List VNFInstance) {ty ty' : VNFType}
    (h : ty ≠ ty') : (inv.setInsts ty l).insts ty' = inv.insts ty' := by
  cases ty <;> cases ty' <;> first | rfl | exact absurd rfl h

lemma setInsts_setInsts (inv : VNFInventory) (ty : VNFType) (l1 l2 : List VNFInstance) :
    (inv.setInsts ty l1).setInsts ty l2 = inv.setInsts ty l2 := by
  cases ty <;> rfl

lemma setInsts_insts_self (inv : VNFInventory) (ty : VNFType) :
    inv.setInsts ty (inv.insts ty) = inv := by
  cases ty <;> rfl

/-- Instance count after a deploy: the deployed type's vector grows by
one, the others are untouched. -/
lemma deployVNF_insts_length (inv : VNFInventory) (ty' : VNFType) (loc : String)
    (ty : VNFType) :
    ((deployVNF inv ty' loc).2.2.insts ty).length =
      if ty' = ty then (inv.insts ty).length + 1 else (inv.insts ty).length := by
  by_cases h : ty' = ty
  · subst h
    simp [deployVNF]
  · rw [if_neg h]
    show ((inv.setInsts ty' _).insts ty).length = _
    rw [insts_setInsts_ne _ _ h]

/-- The identifiers `applyOps` records for a type are exactly the
type's name suffixed with the successive values of `idxTrace`. -/
lemma idsFor_applyOps (ops : List NFVOp) : ∀ (inv : VNFInventory) (ty : VNFType),
    idsFor ty (applyOps inv ops).2 =
      (idxTrace inv ops ty).map (fun n => vnfTypeToString ty ++ "_" ++ toString n) := by
  induction ops with
  | nil => intro inv ty; rfl
  | cons op rest ih =>
    intro inv ty
    cases op with
    | deploy ty' loc =>
      by_cases h : ty' = ty
      · subst h
        simp [applyOps, idxTrace, idsFor, deployVNF, ih]
      · simp [applyOps, idxTrace, idsFor, h, ih]
    | scaleDown ty' =>
      simp [applyOps, idxTrace, ih]

/-- Scaling down one type leaves every other type's vector untouched. -/
lemma scaleDown_insts_ne (inv : VNFInventory) {ty' ty : VNFType} (h : ty' ≠ ty) :
    ((scaleDown inv ty').2).insts ty = inv.insts ty := by
  rw [scaleDown]
  split_ifs with he
  · rfl
  · exact insts_setInsts_ne _ _ h

/-- Along an operation sequence containing no scale-down of the given
type, the numeric suffixes assigned for that type strictly increase:
each deploy of the type grows its count by one, deploys of other types
leave it unchanged, and scale-downs of other types cannot shrink it. -/
lemma idxTrace_pairwise_of_no_scaledown (ops : List NFVOp) :
    ∀ (inv : VNFInventory) (ty : VNFType), NFVOp.scaleDown ty ∉ ops →
    ((idxTrace inv ops ty).Pairwise (· < ·) ∧
      ∀ n ∈ idxTrace inv ops ty, (inv.insts ty).length ≤ n) := by
  induction ops with
  | nil =>
    intro inv ty _
    exact ⟨List.Pairwise.nil, by simp [idxTrace]⟩
  | cons op rest ih =>
    intro inv ty h
    have hrest : NFVOp.scaleDown ty ∉ rest :=
      fun hc => h (List.mem_cons_of_mem _ hc)
    cases op with
    | deploy ty' loc =>
      obtain ⟨hp, hb⟩ := ih (deployVNF inv ty' loc).2.2 ty hrest
      have hlen := deployVNF_insts_length inv ty' loc ty
      by_cases hty : ty' = ty
      · subst hty
        rw [if_pos rfl] at hlen
        refine ⟨?_, ?_⟩
        · rw [idxTrace, if_pos rfl]
          refine List.Pairwise.cons (fun n hn => ?_) hp
          have := hb n hn
          omega
        · intro n hn
          rw [idxTrace, if_pos rfl] at hn
          rcases List.mem_cons.mp hn with rfl | hn
          · exact le_refl _
          · have := hb n hn
            omega
      · rw [if_neg hty] at hlen
        rw [idxTrace, if_neg hty]
        exact ⟨hp, fun n hn => hlen ▸ hb n hn⟩
    | scaleDown ty' =>
      have hty : ty' ≠ ty := by
        intro he
        subst he
        exact h (List.mem_cons_self _ _)
      obtain ⟨hp, hb⟩ := ih (Cosim.scaleDown inv ty').2 ty hrest
      rw [idxTrace]
      refine ⟨hp, fun n hn => ?_⟩
      have := hb n hn
      rwa [scaleDown_insts_ne inv hty] at this

/-- The operation sequence deploy, deploy, scale-down, deploy for the
router type, starting from the initial (empty) inventory. -/
def opsC5 : List NFVOp :=
  [NFVOp.deploy VNFType.NDN_ROUTER "RSU_1",
   NFVOp.deploy VNFType.NDN_ROUTER "RSU_1",
   NFVOp.scaleDown VNFType.NDN_ROUTER,
   NFVOp.deploy VNFType.NDN_ROUTER "RSU_1"]

/-- C5 (counterexample): deploy, deploy, scale-down, deploy assigns the
identifier "NDNRouter_1" twice — the identifier assigned by `deployVNF`
is the current instance count, so after a scale-down an id is reused
and the ever-assigned identifiers are not unique. -/
theorem deploy_id_reuse_counterexample :
    (applyOps emptyInventory opsC5).2 =
      [(VNFType.NDN_ROUTER, "NDNRouter_0"), (VNFType.NDN_ROUTER, "NDNRouter_1"),
        (VNFType.NDN_ROUTER, "NDNRouter_1")] ∧
    ¬ ((applyOps emptyInventory opsC5).2.map Prod.snd).Nodup := by
  refine ⟨by decide, by decide⟩

/-- C5 (amended): `deployVNF` always succeeds and assigns the
identifier built from the type's current instance count; across any
operation sequence the assigned identifiers for a type are the type
name suffixed with the `idxTrace` counts, and when the sequence
contains no ScaleDown *for that type* (ScaleDowns of other types are
allowed) those counts strictly increase, so no identifier is assigned
twice.  (With a ScaleDown of the type interleaved an identifier can be
reused, as the counterexample shows.) -/
theorem deploy_ids_fresh_without_scaledown :
    (∀ (inv : VNFInventory) (ty : VNFType) (loc : String),
      (deployVNF inv ty loc).1 = true ∧
      (deployVNF inv ty loc).2.1 =
        vnfTypeToString ty ++ "_" ++ toString (inv.insts ty).length) ∧
    (∀ (inv : VNFInventory) (ops : List NFVOp) (ty : VNFType),
      idsFor ty (applyOps inv ops).2 =
        (idxTrace inv ops ty).map (fun n => vnfTypeToString ty ++ "_" ++ toString n)) ∧
    (∀ (inv : VNFInventory) (ops : List NFVOp) (ty : VNFType),
      NFVOp.scaleDown ty ∉ ops → (idxTrace inv ops ty).Pairwise (· < ·)) :=
  ⟨fun _ _ _ => ⟨rfl, rfl⟩,
    fun inv ops ty => idsFor_applyOps ops inv ty,
    fun inv ops ty h => (idxTrace_pairwise_of_no_scaledown ops inv ty h).1⟩

/-- Two deploys of the router type with a scale-down of another type
(the cache optimizer) interleaved: no scale-down of the router type. -/
def opsMixed : List NFVOp :=
  [NFVOp.deploy VNFType.NDN_ROUTER "RSU_1",
   NFVOp.scaleDown VNFType.CACHE_OPTIMIZER,
   NFVOp.deploy VNFType.NDN_ROUTER "EDGE_1"]

/-- Witness for C5 (amended) at concrete inputs; the freshness part is
exercised on a sequence interleaving a scale-down of another type. -/
theorem deploy_ids_fresh_without_scaledown_witness :
    ((deployVNF emptyInventory VNFType.NDN_ROUTER "RSU_1").1 = true ∧
      (deployVNF emptyInventory VNFType.NDN_ROUTER "RSU_1").2.1 =
        vnfTypeToString VNFType.NDN_ROUTER ++ "_" ++
          toString (emptyInventory.insts VNFType.NDN_ROUTER).length) ∧
    (idxTrace emptyInventory opsMixed VNFType.NDN_ROUTER).Pairwise (· < ·) :=
  ⟨deploy_ids_fresh_without_scaledown.1 emptyInventory VNFType.NDN_ROUTER "RSU_1",
    deploy_ids_fresh_without_scaledown.2.2 emptyInventory opsMixed VNFType.NDN_ROUTER
      (by decide)⟩

/-- Scaling down right after pushing one instance at the back restores
the original inventory. -/
lemma scaleDown_after_push (inv : VNFInventory) (ty : VNFType) (x : VNFInstance) :
    (scaleDown (inv.setInsts ty (inv.insts ty ++ [x])) ty).2 = inv := by
  have hne : (inv.insts ty ++ [x]).isEmpty = false := by
    simp
  simp only [scaleDown, insts_setInsts_self, hne, Bool.false_eq_true, if_false,
    setInsts_setInsts, List.dropLast_concat]
  exact setInsts_insts_self inv ty

/-- C9: scaling down a type with no instances reports `false` and
leaves the inventory untouched, no matter how often it is repeated;
when instances exist it reports `true` and removes the last (most
recently deployed, since `deployVNF` pushes at the back) instance of
that type — in particular a scale-down right after a deploy restores
the previous inventory. -/
theorem scaledown_empty_noop_else_pops_latest (inv : VNFInventory) (ty : VNFType) :
    (inv.insts ty = [] →
      scaleDown inv ty = (false, inv) ∧
      (∀ n : Nat, (fun i => (scaleDown i ty).2)^[n] inv = inv) ∧
      (∀ n : Nat, (scaleDown ((fun i => (scaleDown i ty).2)^[n] inv) ty).1 = false)) ∧
    (inv.insts ty ≠ [] →
      (scaleDown inv ty).1 = true ∧
      (scaleDown inv ty).2.insts ty = (inv.insts ty).dropLast ∧
      ∀ ty' ≠ ty, (scaleDown inv ty).2.insts ty' = inv.insts ty') ∧
    (∀ loc : String, (scaleDown (deployVNF inv ty loc).2.2 ty).2 = inv) := by
  refine ⟨fun h => ?_, fun h => ?_, fun loc => ?_⟩
  · have hsd : scaleDown inv ty = (false, inv) := by
      simp [scaleDown, h]
    have hiter : ∀ n : Nat, (fun i => (scaleDown i ty).2)^[n] inv = inv := by
      intro n
      induction n with
      | zero => rfl
      | succ n ihn =>
        rw [Function.iterate_succ_apply, hsd]
        exact ihn
    exact ⟨hsd, hiter, fun n => by rw [hiter n, hsd]⟩
  · have hne : (inv.insts ty).isEmpty = false := by
      cases hl : inv.insts ty with
      | nil => exact absurd hl h
      | cons a l => rfl
    refine ⟨by simp [scaleDown, hne], by simp [scaleDown, hne], fun ty' hty' => ?_⟩
    simp only [scaleDown, hne, Bool.false_eq_true, if_false]
    exact insts_setInsts_ne _ _ (Ne.symm hty')
  · exact scaleDown_after_push inv ty _

/-- Witness for C9 at concrete inventories. -/
theorem scaledown_empty_noop_else_pops_latest_witness :
    scaleDown emptyInventory VNFType.NDN_ROUTER = (false, emptyInventory) ∧
    (scaleDown (deployVNF emptyInventory VNFType.NDN_ROUTER "RSU_1").2.2
      VNFType.NDN_ROUTER).1 = true ∧
    (scaleDown (deployVNF emptyInventory VNFType.NDN_ROUTER "RSU_1").2.2
      VNFType.NDN_ROUTER).2 = emptyInventory :=
  ⟨((scaledown_empty_noop_else_pops_latest emptyInventory VNFType.NDN_ROUTER).1 rfl).1,
    ((scaledown_empty_noop_else_pops_latest
        (deployVNF emptyInventory VNFType.NDN_ROUTER "RSU_1").2.2 VNFType.NDN_ROUTER).2.1
      (by simp [deployVNF])).1,
    (scaledown_empty_noop_else_pops_latest emptyInventory VNFType.NDN_ROUTER).2.2 "RSU_1"⟩

/-! ## Claims about the synchronization run loop -/

/-- The failure iteration of the loop body: counters bump, time stays,
break exactly when the cumulative `failedSteps` exceeds 5. -/
lemma loopBody_false (i : Rat) (s : SyncState) :
    loopBody i false s =
      ({ s with failedSteps := s.failedSteps + 1, totalSteps := s.totalSteps + 1 },
        decide (s.failedSteps + 1 > 5)) := rfl

/-- The success iteration of the loop body: time advances by the sync
interval, success counters bump, no break. -/
lemma loopBody_true (i : Rat) (s : SyncState) :
    loopBody i true s =
      ({ s with
          successfulSteps := s.successfulSteps + 1
          totalSteps := s.totalSteps + 1
          currentTime := s.currentTime + i
          stepCount := s.stepCount + 1 }, false) := rfl

/-- Unfolding one loop iteration while the time bound has not been
reached. -/
lemma runLoop_cons (i T : Rat) (s : SyncState) (o : Bool) (rest : List Bool)
    (h : s.currentTime < T) :
    runLoop i T s (o :: rest) =
      if (loopBody i o s).2 then (loopBody i o s).1
      else runLoop i T (loopBody i o s).1 rest := by
  rw [runLoop, if_pos h]

/-- C1: in every iteration of the run loop's body, a successful step
advances the session's current simulated time by exactly the sync
interval, and a failed step leaves it unchanged. -/
theorem step_time_advances_iff_success (i : Rat) (o : Bool) (s : SyncState) :
    (loopBody i o s).1.currentTime =
      if o then s.currentTime + i else s.currentTime := by
  cases o
  · rw [loopBody_false]
    simp
  · rw [loopBody_true]
    simp

/-- Up to 5 cumulative failures (`k ≤ 5` consecutive here) only bump the failure counters: the
loop neither advances time nor breaks. -/
lemma runLoop_replicate_false (i T : Rat) :
    ∀ (k : Nat) (s : SyncState) (rest : List Bool),
      s.currentTime < T → s.failedSteps + k ≤ 5 →
      runLoop i T s (List.replicate k false ++ rest) =
        runLoop i T
          { s with failedSteps := s.failedSteps + k, totalSteps := s.totalSteps + k }
          rest := by
  intro k
  induction k with
  | zero =>
    intro s rest h hk
    simp
  | succ k ihk =>
    intro s rest h hk
    rw [List.replicate_succ, List.cons_append, runLoop_cons _ _ _ _ _ h, loopBody_false]
    have hbrk : decide (s.failedSteps + 1 > 5) = false := by
      simp only [decide_eq_false_iff_not, gt_iff_lt, not_lt]
      omega
    rw [hbrk]
    simp only [Bool.false_eq_true, if_false]
    rw [ihk _ rest (by simpa using h) (by simpa using by omega : _ )]
    have h1 : s.failedSteps + 1 + k = s.failedSteps + (k + 1) := by omega
    have h2 : s.totalSteps + 1 + k = s.totalSteps + (k + 1) := by omega
    simp only [h1, h2]

/-- The failure that takes the cumulative counter from 5 to 6 breaks
the loop: the remaining script is not processed. -/
lemma runLoop_sixth_failure (i T : Rat) (s : SyncState) (rest : List Bool)
    (h : s.currentTime < T) (h5 : s.failedSteps = 5) :
    runLoop i T s (false :: rest) =
      { s with failedSteps := 6, totalSteps := s.totalSteps + 1 } := by
  rw [runLoop_cons _ _ _ _ _ h, loopBody_false, h5]
  rfl

/-- C2 (counterexample): with the hard-coded check `failedSteps > 5`,
five consecutive step failures do **not** terminate the run loop: a
sixth, successful step is still executed, after which
`successfulSteps = 1` and the time has advanced — contradicting both
"terminates with failedSteps = 5" and "the loop never continues past
the threshold". -/
theorem five_failures_do_not_abort :
    (runLoop 1 100 ⟨0, 0, 0, 0, 0⟩ [false, false, false, false, false, true]) =
      ⟨1, 6, 1, 5, 1⟩ := by
  have hsplit : ([false, false, false, false, false, true] : List Bool) =
      List.replicate 5 false ++ [true] := rfl
  rw [hsplit,
    runLoop_replicate_false 1 100 5 ⟨0, 0, 0, 0, 0⟩ [true] (by norm_num) (by norm_num)]
  rw [runLoop_cons _ _ _ _ _ (by norm_num), loopBody_true]
  norm_num [runLoop]

/-- C2 (amended): the run loop terminates as session-fatal only once
the cumulative `failedSteps` counter exceeds 5, i.e. on the sixth
failure: six consecutive failures break the loop (any remaining script
is ignored) with `failedSteps = 6`, `successfulSteps` and the current
time unchanged, and `run()` reports a failure outcome. -/
theorem six_failures_abort_session (i T : Rat) (s : SyncState) (rest : List Bool)
    (h0 : s.failedSteps = 0) (hlt : s.currentTime < T) :
    runLoop i T s (List.replicate 6 false ++ rest) =
      { s with failedSteps := 6, totalSteps := s.totalSteps + 6 } ∧
    runOutcome i T s (List.replicate 6 false ++ rest) = false := by
  have hsplit : (List.replicate 6 false : List Bool) ++ rest =
      List.replicate 5 false ++ (false :: rest) := rfl
  have hrun : runLoop i T s (List.replicate 6 false ++ rest) =
      { s with failedSteps := 6, totalSteps := s.totalSteps + 6 } := by
    rw [hsplit, runLoop_replicate_false i T 5 s (false :: rest) hlt (by omega)]
    rw [runLoop_sixth_failure i T _ rest (by simpa using hlt) (by simp [h0])]
  refine ⟨hrun, ?_⟩
  rw [runOutcome, hrun]
  simp only [decide_eq_false_iff_not, not_le]
  simpa using hlt

/-- Witness for C2 (amended) at a concrete initial state. -/
theorem six_failures_abort_session_witness :
    runLoop 1 100 ⟨0, 0, 0, 0, 0⟩ (List.replicate 6 false ++ []) =
      ⟨0, 6, 0, 6, 0⟩ ∧
    runOutcome 1 100 ⟨0, 0, 0, 0, 0⟩ (List.replicate 6 false ++ []) = false :=
  six_failures_abort_session 1 100 ⟨0, 0, 0, 0, 0⟩ [] rfl (by norm_num)

/-! ## Claims about the vehicle-data exchange -/

/-- A leader-side vehicle. -/
def vehLeader : VehicleInfo := ⟨"vehicle_0", 0, 0, 0, 0, 0, 0, 0, 0, 0⟩

/-- A follower-side vehicle. -/
def vehFollower : VehicleInfo := ⟨"ns3_0", 0, 0, 0, 0, 0, 0, 0, 0, 0⟩

/-- C4 (counterexample): the step data exchange of
`executeTimeStep` does not push the union: with leader dataset
`[vehLeader]` and follower dataset `[vehFollower]`, after the exchange
the leader's dataset is `[vehFollower]` and no longer contains the
leader's own vehicle. -/
theorem exchange_not_union_counterexample :
    (executeTimeStepExchange ⟨[vehLeader], [vehFollower]⟩).leaderVehicles = [vehFollower] ∧
    vehLeader ∉ (executeTimeStepExchange ⟨[vehLeader], [vehFollower]⟩).leaderVehicles := by
  refine ⟨rfl, fun hmem => ?_⟩
  have hid : vehLeader.id = vehFollower.id := by
    rcases List.mem_singleton.mp hmem with h
    rw [h]
  exact absurd hid (by decide)

/-- C4 (amended): the step-scoped exchange of `executeTimeStep` pulls
both datasets and cross-assigns them — the follower receives the
leader's dataset and the leader receives the follower's, each
*replacing* its own (so each side afterwards holds exactly the other
side's previous vehicles, not the union).  Only the legacy
`Synchronizer::exchangeVehicleData` pushes the concatenated union of
both datasets to both sides, where every vehicle of either side is
present. -/
theorem exchange_swaps_datasets :
    (∀ p : SimPair,
      executeTimeStepExchange p =
        { leaderVehicles := p.followerVehicles, followerVehicles := p.leaderVehicles }) ∧
    (∀ L F : List VehicleInfo,
      exchangeVehicleDataUnion [L, F] = [L ++ F, L ++ F] ∧
      ∀ v : VehicleInfo, v ∈ L ∨ v ∈ F → v ∈ L ++ F) := by
  refine ⟨fun p => rfl, fun L F => ⟨?_, fun v hv => ?_⟩⟩
  · simp [exchangeVehicleDataUnion]
  · rcases hv with h | h
    · exact List.mem_append_left _ h
    · exact List.mem_append_right _ h

/-- Witness for C4 (amended) at concrete one-vehicle datasets. -/
theorem exchange_swaps_datasets_witness :
    executeTimeStepExchange ⟨[vehLeader], [vehFollower]⟩ = ⟨[vehFollower], [vehLeader]⟩ ∧
    exchangeVehicleDataUnion [[vehLeader], [vehFollower]] =
      [[vehLeader] ++ [vehFollower], [vehLeader] ++ [vehFollower]] ∧
    vehLeader ∈ [vehLeader] ++ [vehFollower] :=
  ⟨exchange_swaps_datasets.1 ⟨[vehLeader], [vehFollower]⟩,
    (exchange_swaps_datasets.2 [vehLeader] [vehFollower]).1,
    (exchange_swaps_datasets.2 [vehLeader] [vehFollower]).2 vehLeader
      (Or.inl (List.mem_singleton_self _))⟩

end Cosim
